import Mathlib

/-!
Shallow embedding of the cool-downloader program (src/downloader/main.py)
and verification of its specification claims.

Bytes are modelled as natural numbers; byte strings as lists of naturals.
-/

namespace CoolDownloader

/-- A byte string (the contents of a chunk, a buffer or a file). -/
abbrev Bytes := List Nat

/-! ### In-memory buffer (io.BytesIO as used by buffered mode)

`downloader` in buffered mode writes every chunk into a fresh in-memory
buffer via `write`, then at the end calls `read()` (with no argument)
and writes the returned bytes to the destination file.  The buffer keeps
a current position: `write` writes at that position and advances it,
`read()` returns the bytes from the current position to the end and moves
the position to the end.  The source never rewinds the buffer. -/

structure MemBuffer where
  data : Bytes
  pos : Nat
deriving Repr, DecidableEq

/-- A fresh empty buffer, as created by the constructor call at line 167. -/
def MemBuffer.empty : MemBuffer := { data := [], pos := 0 }

/-- `buf.write(b)`: overwrite at the current position and advance it. -/
def MemBuffer.write (s : MemBuffer) (b : Bytes) : MemBuffer :=
  { data := s.data.take s.pos ++ b ++ s.data.drop (s.pos + b.length),
    pos := s.pos + b.length }

/-- `buf.read()` with no argument: the bytes from the current position to
the end, leaving the position at the end. -/
def MemBuffer.readAll (s : MemBuffer) : Bytes × MemBuffer :=
  (s.data.drop s.pos, { s with pos := s.data.length })

/-! ### Progress entries (rich.progress tasks, as used by `downloader`)

A progress entry holds a total, a completed count and a description.
`add_task` at line 79 creates the entry with total 0 and completed 0;
`progress.update` overwrites the fields it is given (a `total` of `None`
leaves the stored total unchanged, which is why an absent Content-Length
leaves the initial total of 0 in place).  The Python `%r` quoting of the
file name inside descriptions is abstracted away (the name is inserted
verbatim). -/

structure ProgressEntry where
  total : Int
  completed : Int
  description : String
deriving Repr, DecidableEq

/-- Description written by the non-2xx branch at line 104:
Get host - [red]status N[/]. -/
def statusDesc (host : String) (statusCode : Nat) : String :=
  "Get " ++ host ++ " - [red]status " ++ toString statusCode ++ "[/]"

/-- Description written by the unparsable-Content-Length branch at line 152. -/
def failedDesc (host : String) : String :=
  "Get " ++ host ++ " - failed!"

/-- Description written by the transfer updates at lines 158 and 184:
Get displayDomain (fileName). -/
def getDesc (displayDomain fileName : String) : String :=
  "Get " ++ displayDomain ++ " (" ++ fileName ++ ")"

/-! ### String primitives

The Python string operations the source relies on, re-implemented by
structural recursion over character lists (so every concrete claim input
evaluates inside the kernel). -/

/-- Does the second list start with the first? -/
def charsStartWith : List Char → List Char → Bool
  | [], _ => true
  | _ :: _, [] => false
  | p :: ps, c :: cs => p == c && charsStartWith ps cs

/-- Python `s.startswith(pre)`. -/
def strStartsWith (s pre : String) : Bool :=
  charsStartWith pre.toList s.toList

/-- Python `sep in s` for a one-character separator. -/
def strContainsChar (s : String) (c : Char) : Bool :=
  s.toList.contains c

/-- Python `s.split(sep)` for a one-character separator, on character
lists: every maximal separator-free run, including empty runs between
adjacent separators and at the ends. -/
def splitChars (sep : Char) : List Char → List (List Char)
  | [] => [[]]
  | c :: rest =>
    match splitChars sep rest with
    | [] => if c == sep then [[], []] else [[c]]
    | g :: gs => if c == sep then [] :: g :: gs else (c :: g) :: gs

/-- Python `s.split(sep)` for a one-character separator. -/
def strSplitOn (s : String) (sep : Char) : List String :=
  (splitChars sep s.toList).map List.asString

/-- Drop leading whitespace from a character list. -/
def dropSpaces : List Char → List Char
  | [] => []
  | c :: cs => if c.isWhitespace then dropSpaces cs else c :: cs

/-- Python `s.strip()` (over the ASCII whitespace the claims need). -/
def pyStrip (s : String) : List Char :=
  (dropSpaces (dropSpaces s.toList.reverse).reverse)

/-! ### Parsing Content-Length (the `int(length)` call at line 145)

Python `int` on a string strips surrounding whitespace and accepts an
optional sign followed by decimal digits; anything else raises
`ValueError`.  (Underscore digit grouping is not modelled; no claim
depends on it.) -/

def parsePyInt (s : String) : Option Int :=
  let t := pyStrip s
  let core :=
    match t with
    | c :: rest => if c == '-' || c == '+' then rest else t
    | [] => t
  let sign : Int :=
    match t with
    | c :: _ => if c == '-' then -1 else 1
    | [] => 1
  if core ≠ [] && core.all Char.isDigit then
    some (sign * (core.foldl (fun n c => n * 10 + (c.toNat - 48)) 0 : Nat))
  else
    none

/-! ### The body-transfer loop (lines 171-190)

Each iteration writes the chunk, then sets the entry total to the stored
total when it exceeds the cumulative bytes downloaded and to the
cumulative bytes downloaded otherwise, and sets completed to the
cumulative bytes downloaded.  `received` threads the running value of
`response.num_bytes_downloaded`. -/

def transferLoop (desc : String) :
    ProgressEntry → Nat → List Bytes → ProgressEntry × Nat
  | st, received, [] => (st, received)
  | st, received, c :: rest =>
    let r := received + c.length
    let t : Int := if st.total ≤ (r : Int) then (r : Int) else st.total
    transferLoop desc { total := t, completed := (r : Int), description := desc } r rest

/-! ### One download task after the real GET response arrives (lines 96-228)

The model starts where the response is available: the status check, the
Content-Length parse, the transfer loop and the final write are embedded.
The destination file is modelled by its content (`none` when no file
exists at the resolved path).  `streamEnd` says how the chunk iteration
ends: normally, by a KeyboardInterrupt/RuntimeError (cancellation), or by
a ReadError/TimeoutException/ConnectError (transport failure).  `chunks`
are the chunks fully delivered before that end event. -/

inductive StreamEnd where
  | completed
  | cancelled
  | transportError
deriving Repr, DecidableEq

structure Response where
  statusCode : Nat
  host : String
  contentLengthHeader : Option String
  chunks : List Bytes
  streamEnd : StreamEnd
deriving Repr, DecidableEq

/-- Result of one download task: the final progress entry (`none` when
the entry was removed), the content of the destination file afterwards
(`none` when no file exists there), and the body bytes consumed. -/
structure TaskResult where
  progress : Option ProgressEntry
  file : Option Bytes
  bytesRead : Nat
deriving Repr, DecidableEq

/-- The download task from the arrival of the GET response onwards,
with the destination name and display label already resolved and the
pre-existing content of the destination path given by `prior`.

Line 99: a status outside range(200, 300) updates the entry to
total 1 / completed 1 with the status description and returns.
Lines 142-152: a present but unparsable Content-Length updates the entry
to total 1 / completed 1 with the failure description and the function
falls off the try/except without entering the transfer.
Lines 154-164: otherwise the entry is set to the parsed length (an absent
header leaves the initial total 0) and completed 0.
Lines 166-190: direct mode opens the destination with mode wb+
(truncating it) and writes each chunk as it arrives; buffered mode writes
each chunk into a fresh in-memory buffer.
Lines 191-207: cancellation keeps the entry as last updated; a transport
error removes the entry; in both cases buffered mode never opens the
destination, while direct mode leaves the chunks written so far.
Lines 208-212: on normal completion buffered mode opens the destination
with mode wb+ (truncating it) and writes `buf.read()` into it. -/
def downloaderBody (buffer : Bool) (resp : Response)
    (fileName displayDomain : String) (prior : Option Bytes) : TaskResult :=
  if ¬ (200 ≤ resp.statusCode ∧ resp.statusCode < 300) then
    { progress := some { total := 1, completed := 1,
                         description := statusDesc resp.host resp.statusCode },
      file := prior, bytesRead := 0 }
  else if resp.contentLengthHeader.isSome ∧
      (parsePyInt (resp.contentLengthHeader.getD "")).isNone then
    { progress := some { total := 1, completed := 1,
                         description := failedDesc resp.host },
      file := prior, bytesRead := 0 }
  else
    let parsed := resp.contentLengthHeader.bind parsePyInt
    let desc := getDesc displayDomain fileName
    let entry0 : ProgressEntry :=
      { total := parsed.getD 0, completed := 0, description := desc }
    let loopOut := transferLoop desc entry0 0 resp.chunks
    match resp.streamEnd with
    | .cancelled =>
      { progress := some loopOut.1,
        file := if buffer then prior else some resp.chunks.flatten,
        bytesRead := loopOut.2 }
    | .transportError =>
      { progress := none,
        file := if buffer then prior else some resp.chunks.flatten,
        bytesRead := loopOut.2 }
    | .completed =>
      let written :=
        if buffer then
          ((resp.chunks.foldl MemBuffer.write MemBuffer.empty).readAll).1
        else resp.chunks.flatten
      { progress := some loopOut.1, file := some written,
        bytesRead := loopOut.2 }

/-! ### Duplicate removal in `cli_main` (lines 316-319)

The Python loop iterates over the very list it mutates:
the iterator keeps an index, yields the element at that index from the
current state of the list, and the body pops the FIRST occurrence
(`urls.pop(urls.index(_url))`) when the count of the yielded element is
not 1.  `pyDedupGo` mirrors this exactly; the fuel argument only bounds
the iteration count (each step raises the index by one and the loop stops
once the index reaches the current length, which never exceeds the
initial length, so `urls.length` steps always suffice). -/

def pyDedupGo : Nat → List String → Nat → List String
  | 0, urls, _ => urls
  | fuel + 1, urls, i =>
    if h : i < urls.length then
      let u := urls.get ⟨i, h⟩
      if urls.count u ≠ 1 then
        pyDedupGo fuel (urls.erase u) (i + 1)
      else
        pyDedupGo fuel urls (i + 1)
    else urls

/-- The deduplication pass of `cli_main` over the url list. -/
def pyDedup (urls : List String) : List String :=
  pyDedupGo urls.length urls 0

/-! ### Credential validation and pre-flight of `cli_main` (lines 306-319)

Line 306 compares `type(username)` with `type(password)`: the types
differ exactly when one option is a string and the other is `None`.
The usage errors are raised before the url list is deduplicated and
before any download task is created. -/

def authErrorMsg : String :=
  "Username must be supplied with password or both omitted."

def noUrlsMsg : String := "No urls were provided"

/-- Line 306-311: reject a username without a password and vice versa;
both absent means no credentials, both present means a credential pair. -/
def validateAuth (username password : Option String) :
    Except String (Option (String × String)) :=
  if username.isSome != password.isSome then
    Except.error authErrorMsg
  else if username.isNone && password.isNone then
    Except.ok none
  else
    Except.ok (some (username.getD "", password.getD ""))

/-- The pre-flight part of `cli_main` in source order: credential check
(line 306), empty-url check (line 313), duplicate removal (line 316).
The returned list is the list of urls for which download tasks are then
created, one task per element (lines 348-359); an error means the program
aborts before any task is created. -/
def cliPlan (urls : List String) (username password : Option String) :
    Except String (List String × Option (String × String)) :=
  match validateAuth username password with
  | Except.error e => Except.error e
  | Except.ok auth =>
    if urls.isEmpty then Except.error noUrlsMsg
    else Except.ok (pyDedup urls, auth)

/-! ### Redirect-hop logging (lines 109-119)

The HTTP client records `response.history` as the list of redirect
responses in chronological order, oldest first, and each response in that
history carries its own `history`: the responses issued before it.  A
history entry is modelled by its url together with the urls of its own
history.  `mkRedirectChain urls` builds the history of a request whose
redirect responses had urls `urls` in chronological order.

The source iterates `reversed(response.history)` and logs, for each
historical response `hr`, the pair
`(hr.url, (hr.history or [response])[-1].url)`: the second component is
the LAST element of the historical response's own history when that
history is non-empty, and the final response's url otherwise. -/

structure HistEntry where
  url : String
  priorUrls : List String
deriving Repr, DecidableEq

/-- The history of a chain whose redirect responses had the given urls,
oldest first: entry `j` carries the urls of the responses before it. -/
def mkRedirectChain (urls : List String) : List HistEntry :=
  (List.range urls.length).map fun j =>
    { url := urls.getD j "", priorUrls := urls.take j }

/-- The (from, to) pairs logged by lines 110-117, in log order. -/
def loggedRedirects (history : List HistEntry) (finalUrl : String) :
    List (String × String) :=
  history.reverse.map fun hr =>
    (hr.url, (if hr.priorUrls.isEmpty then [finalUrl] else hr.priorUrls).getLastD "")

/-- Modelled from the spec sentence: each hop logged as a (from, to)
pair in chronological order, oldest redirect first.  Used only to compare
the logging the source performs against the claimed output. -/
def specChronologicalHops (urls : List String) (finalUrl : String) :
    List (String × String) :=
  urls.zip (urls.drop 1 ++ [finalUrl])

/-! ### File-name suffix handling (lines 125-140)

`pathlib` semantics used by the source, on the final path component:
`file.suffix` is the part of the name from its last dot onwards, provided
that dot is neither the first nor the last character, and the empty
string otherwise.  `file.with_suffix(sfx)` raises `ValueError` when `sfx`
contains the path separator, when `sfx` is non-empty but does not start
with a dot, when `sfx` is exactly a dot, or when the name is empty;
otherwise it replaces (or appends, when there was none) the suffix.
A raising call is modelled as `none`. -/

def rfindDot (s : String) : Option Nat :=
  ((List.range s.length).filter fun i => s.toList.getD i ' ' = '.').getLast?

/-- `Path(name).suffix` for a single-component name. -/
def pySuffix (name : String) : String :=
  match rfindDot name with
  | none => ""
  | some i =>
    if 0 < i ∧ i < name.length - 1 then ((name.toList).drop i).asString else ""

/-- `Path(name).with_suffix(sfx)` for a single-component name;
`none` models a raised `ValueError`. -/
def withSuffix (name sfx : String) : Option String :=
  if strContainsChar sfx '/' then none
  else if (sfx != "" && !(strStartsWith sfx ".")) || sfx == "." then none
  else if name == "" then none
  else
    let old := pySuffix name
    some (if old == "" then name ++ sfx
          else (name.toList.take (name.length - old.length)).asString ++ sfx)

/-- Line 135: `response.headers["Content-Type"].split(";")[0].split("/")[1]`;
`none` models a raised `IndexError` when the media type has no slash. -/
def contentTypeSubtype (ct : String) : Option String :=
  match strSplitOn ((strSplitOn ct ';').headD "") '/' with
  | _ :: sub :: _ => some sub
  | _ => none

/-- Lines 134-140: when the resolved name has no suffix and a Content-Type
header is present (and non-empty), compute the subtype and try
`file.with_suffix(subtype)`; on `ValueError` fall back to
`file.with_suffix("")`.  The result is the final file name
(`none` models an uncaught exception escaping the task). -/
def applyContentTypeSuffix (fileName : String) (contentTypeHeader : Option String) :
    Option String :=
  let ctVal := contentTypeHeader.getD ""
  if pySuffix fileName == "" && ctVal != "" then
    match contentTypeSubtype ctVal with
    | none => none
    | some ct =>
      match withSuffix fileName ct with
      | some n => some n
      | none => withSuffix fileName ""
  else some fileName

/-! ### The authentication prober `requires_authentication` (lines 53-64)

With `try_head_first` set, a HEAD request is issued first and a 401
response whose WWW-Authenticate header starts with "Basic" returns true
at once.  Otherwise (and also when the HEAD probe did not qualify) a
streamed GET is opened, closed immediately without consuming the body,
and judged by the same test.  The model records which requests were
issued. -/

structure ProbeResponse where
  statusCode : Nat
  wwwAuthenticate : Option String
deriving Repr, DecidableEq

/-- The test applied at lines 56 and 61: status 401 and a
WWW-Authenticate header value (defaulting to the empty string) starting
with "Basic". -/
def isBasicChallenge (r : ProbeResponse) : Bool :=
  r.statusCode == 401 && strStartsWith (r.wwwAuthenticate.getD "") "Basic"

structure ProbeOutcome where
  result : Bool
  headIssued : Bool
  getIssued : Bool
deriving Repr, DecidableEq

/-- `requires_authentication`, given the response the server would send
to the HEAD probe and to the streamed GET. -/
def requires_authentication (tryHeadFirst : Bool)
    (headResp getResp : ProbeResponse) : ProbeOutcome :=
  if tryHeadFirst then
    if isBasicChallenge headResp then
      { result := true, headIssued := true, getIssued := false }
    else
      { result := isBasicChallenge getResp, headIssued := true, getIssued := true }
  else
    { result := isBasicChallenge getResp, headIssued := false, getIssued := true }

/-! ### Group cancellation in `cli_main` (lines 362-385)

On an exception from the group wait, the source first rewrites every
progress entry whose completed differs from its total (lines 364-371:
total kept, completed set to the total, description suffixed with
" (cancelled)"), then sweeps the task list: for each task it calls
`thread.exception()` and cancels the task only when that call returns a
falsy value.  `Task.exception()` returns the captured exception for a
task that finished with an error, returns `None` for a task that
finished normally, and RAISES `asyncio.InvalidStateError` for a task
that is still running; the `except asyncio.InvalidStateError: pass`
around the call swallows that and moves on without cancelling. -/

inductive PyTaskState where
  | running
  | doneOk
  | doneErr
deriving Repr, DecidableEq

/-- Whether the sweep at lines 374-381 calls `.cancel()` on a task in the
given state. -/
def cancelSweep : PyTaskState → Bool
  | .doneErr => false
  | .doneOk => true
  | .running => false

/-- The progress-entry rewrite at lines 364-371. -/
def markCancelled (entries : List ProgressEntry) : List ProgressEntry :=
  entries.map fun e =>
    if e.completed ≠ e.total then
      { total := e.total, completed := e.total,
        description := e.description ++ " (cancelled)" }
    else e

/-! ### Derived views of the transfer loop, used by the claims -/

/-- `response.num_bytes_downloaded` after the first `k` chunks:
the cumulative byte count of the chunks received so far. -/
def cumBytes (chunks : List Bytes) (k : Nat) : Nat :=
  ((chunks.take k).map List.length).sum

/-- The progress entry as it stands after the transfer loop has processed
the first `k` chunks, starting from the entry written at lines 154-164
(total from the parsed Content-Length, completed 0). -/
def entryAfterChunks (desc : String) (init : Int) (chunks : List Bytes) (k : Nat) :
    ProgressEntry :=
  (transferLoop desc { total := init, completed := 0, description := desc } 0
    (chunks.take k)).1

/-! ### Concrete inputs used by witnesses and counterexamples -/

/-- A 200 response with Content-Length 1 and a one-byte body, ending
normally. -/
def respOkOneByte : Response :=
  { statusCode := 200, host := "h", contentLengthHeader := some "1",
    chunks := [[65]], streamEnd := StreamEnd.completed }

/-- A 404 response (whose body the task must never read). -/
def respNotFound : Response :=
  { statusCode := 404, host := "h", contentLengthHeader := some "3",
    chunks := [[9]], streamEnd := StreamEnd.completed }

/-- A 200 response whose transfer is cancelled after one delivered
chunk. -/
def respCancelled : Response :=
  { statusCode := 200, host := "h", contentLengthHeader := some "3",
    chunks := [[9]], streamEnd := StreamEnd.cancelled }

/-- A HEAD response carrying a Basic challenge. -/
def probeBasic401 : ProbeResponse :=
  { statusCode := 401, wwwAuthenticate := some "Basic realm=x" }

/-- A response carrying no challenge at all. -/
def probePlain200 : ProbeResponse :=
  { statusCode := 200, wwwAuthenticate := none }

/-- A 401 response whose challenge scheme is not Basic. -/
def probeDigest401 : ProbeResponse :=
  { statusCode := 401, wwwAuthenticate := some "Digest realm=x" }

/-! ## Supporting lemmas -/

/-- Sequentially writing chunks into a fresh buffer leaves both the data
and the position equal to the concatenation of the chunks: the position
therefore sits at the very end of the buffer when the loop finishes. -/
theorem MemBuffer.foldl_write_spec (chunks : List Bytes) :
    (chunks.foldl MemBuffer.write MemBuffer.empty).data = chunks.flatten ∧
    (chunks.foldl MemBuffer.write MemBuffer.empty).pos = chunks.flatten.length := by
  suffices h : ∀ (cs : List Bytes) (s : MemBuffer), s.pos = s.data.length →
      (cs.foldl MemBuffer.write s).data = s.data ++ cs.flatten ∧
      (cs.foldl MemBuffer.write s).pos = s.data.length + cs.flatten.length by
    have := h chunks MemBuffer.empty rfl
    simpa [MemBuffer.empty] using this
  intro cs
  induction cs with
  | nil => intro s hs; simp [hs]
  | cons c rest ih =>
    intro s hs
    have hw : (MemBuffer.write s c).pos = (MemBuffer.write s c).data.length := by
      simp [MemBuffer.write, hs]
    have := ih (MemBuffer.write s c) hw
    constructor
    · rw [List.foldl_cons, this.1]
      simp [MemBuffer.write, hs, List.append_assoc]
    · rw [List.foldl_cons, this.2]
      simp [MemBuffer.write, hs]
      omega

/-- The bytes handed to the final buffered write: reading a buffer whose
position is at its end yields nothing. -/
theorem MemBuffer.readAll_after_writes (chunks : List Bytes) :
    ((chunks.foldl MemBuffer.write MemBuffer.empty).readAll).1 = [] := by
  have h := MemBuffer.foldl_write_spec chunks
  simp [MemBuffer.readAll, h.1, h.2]

/-- The second component of the transfer loop threads the cumulative
byte count. -/
theorem transferLoop_received (desc : String) (cs : List Bytes) :
    ∀ (st : ProgressEntry) (r : Nat),
      (transferLoop desc st r cs).2 = r + (cs.map List.length).sum := by
  induction cs with
  | nil => intro st r; simp [transferLoop]
  | cons c rest ih =>
    intro st r
    rw [transferLoop, ih]
    simp
    omega

/-- After at least one chunk, the entry produced by the transfer loop has
completed equal to the cumulative byte count, total equal to the maximum
of the incoming total and the cumulative byte count, and the fixed
description. -/
theorem transferLoop_entry (desc : String) (cs : List Bytes) :
    ∀ (st : ProgressEntry) (r : Nat), cs ≠ [] →
      (transferLoop desc st r cs).1.completed =
        ((r + (cs.map List.length).sum : Nat) : Int) ∧
      (transferLoop desc st r cs).1.total =
        max st.total ((r + (cs.map List.length).sum : Nat) : Int) ∧
      (transferLoop desc st r cs).1.description = desc := by
  induction cs with
  | nil => intro st r h; exact absurd rfl h
  | cons c rest ih =>
    intro st r _
    rcases List.eq_nil_or_concat rest with hrest | _
    · subst hrest
      refine ⟨by simp [transferLoop], ?_, by simp [transferLoop]⟩
      simp [transferLoop, max_def]
    · have hne : rest ≠ [] := by
        rintro rfl
        simp_all
      have step := ih
        { total := if st.total ≤ ((r + c.length : Nat) : Int)
            then ((r + c.length : Nat) : Int) else st.total,
          completed := ((r + c.length : Nat) : Int), description := desc }
        (r + c.length) hne
      have hnat : r + c.length + (rest.map List.length).sum
          = r + ((c :: rest).map List.length).sum := by
        simp only [List.map_cons, List.sum_cons]
        omega
      refine ⟨?_, ?_, ?_⟩
      · rw [transferLoop, step.1, hnat]
      · rw [transferLoop, step.2.1]
        have hmax : (if st.total ≤ ((r + c.length : Nat) : Int)
            then ((r + c.length : Nat) : Int) else st.total)
            = max st.total ((r + c.length : Nat) : Int) := (max_def _ _).symm
        simp only [hmax]
        rw [max_assoc]
        have hle : ((r + c.length : Nat) : Int) ≤
            ((r + c.length + (rest.map List.length).sum : Nat) : Int) := by
          exact_mod_cast Nat.le_add_right _ _
        rw [max_eq_right hle, hnat]
      · rw [transferLoop]
        exact step.2.2

/-- The cumulative byte count is monotone in the number of chunks. -/
theorem cumBytes_mono (chunks : List Bytes) (k : Nat) :
    cumBytes chunks k ≤ cumBytes chunks (k + 1) := by
  unfold cumBytes
  rw [List.take_succ]
  simp

/-! ## Claim theorems -/

/-- Claim C1: the spec says that in buffered mode, once the stream
completes, the entire buffered body is written to the destination file.
The source never rewinds the buffer before the final `read()`, so the
read returns nothing and the destination file ends up empty: on the body
chunk list [[65]] the destination content is [] while the body bytes are
[65].  This evaluates the code at the failing input. -/
theorem c1_buffered_completion_writes_empty_file :
    (downloaderBody true respOkOneByte "f" "h" none).file = some [] ∧
    respOkOneByte.chunks.flatten = [65] := by
  decide

/-- Claim C2: the spec says duplicates are removed before task creation,
one task per distinct URL, first occurrence kept.  The dedup loop at
lines 316-319 mutates the list while iterating over it and pops the
first occurrence, so on input [a, b, a, b, a] the surviving list is
[b, b, a]: the url b still occurs twice (two tasks are created for it)
and for a it is the last occurrence that survives.  This evaluates the
code at the failing input. -/
theorem c2_dedup_leaves_duplicates :
    pyDedup ["a", "b", "a", "b", "a"] = ["b", "b", "a"] ∧
    (pyDedup ["a", "b", "a", "b", "a"]).count "b" = 2 ∧
    cliPlan ["a", "b", "a", "b", "a"] none none =
      Except.ok (["b", "b", "a"], none) := by
  refine ⟨by decide, by decide, rfl⟩

/-- Claim C3: the spec says each redirect hop is logged as a
(from, to) pair in chronological order, oldest first.  For the chain
a redirects to b redirects to c, the source logs [(b, a), (a, c)]:
newest first, and each pair points at the PREVIOUS url of the chain
rather than the target of the hop, whereas the actual hops are
[(a, b), (b, c)].  This evaluates the code at the failing input. -/
theorem c3_redirect_log_wrong_pairs :
    loggedRedirects (mkRedirectChain ["a", "b"]) "c" = [("b", "a"), ("a", "c")] ∧
    specChronologicalHops ["a", "b"] "c" = [("a", "b"), ("b", "c")] ∧
    loggedRedirects (mkRedirectChain ["a", "b"]) "c" ≠
      specChronologicalHops ["a", "b"] "c" := by
  decide

/-- Claim C4: the spec says a name without an extension is given a
suffix inferred from the Content-Type header.  The source calls
`with_suffix` with the bare subtype (no leading dot), which always
raises `ValueError`, so the fallback `with_suffix("")` leaves the name
unchanged: for the name file and Content-Type text/html the subtype is
html, the `with_suffix` call raises, and the final name stays file
instead of becoming file.html.  This evaluates the code at the failing
input. -/
theorem c4_content_type_suffix_never_applied :
    contentTypeSubtype "text/html" = some "html" ∧
    withSuffix "file" "html" = none ∧
    applyContentTypeSuffix "file" (some "text/html") = some "file" ∧
    some "file" ≠ some "file.html" := by
  decide

/-- Claim C5: after every received chunk the progress entry has
completed equal to the cumulative bytes received and total equal to
max(total before the transfer, cumulative bytes received); the total
never decreases from one chunk to the next, and once the cumulative
bytes exceed the declared Content-Length (the initial total) the total
equals the cumulative bytes. -/
theorem c5_per_chunk_progress (desc : String) (init : Int)
    (chunks : List Bytes) (k : Nat) (h1 : 1 ≤ k) (h2 : k ≤ chunks.length) :
    (entryAfterChunks desc init chunks k).completed = (cumBytes chunks k : Int) ∧
    (entryAfterChunks desc init chunks k).total =
      max init (cumBytes chunks k : Int) ∧
    (entryAfterChunks desc init chunks (k - 1)).total ≤
      (entryAfterChunks desc init chunks k).total ∧
    (init < (cumBytes chunks k : Int) →
      (entryAfterChunks desc init chunks k).total = (cumBytes chunks k : Int)) := by
  have hchunks : chunks ≠ [] := by
    intro hnil
    rw [hnil] at h2
    simp at h2
    omega
  have htk : chunks.take k ≠ [] := by
    intro hnil
    rcases List.take_eq_nil_iff.mp hnil with h | h
    · omega
    · exact hchunks h
  have main := transferLoop_entry desc (chunks.take k)
    { total := init, completed := 0, description := desc } 0 htk
  have hcompleted : (entryAfterChunks desc init chunks k).completed =
      (cumBytes chunks k : Int) := by
    rw [entryAfterChunks, main.1]
    simp [cumBytes]
  have htotal : (entryAfterChunks desc init chunks k).total =
      max init (cumBytes chunks k : Int) := by
    rw [entryAfterChunks, main.2.1]
    simp [cumBytes]
  refine ⟨hcompleted, htotal, ?_, ?_⟩
  · rcases Nat.eq_or_lt_of_le h1 with h1e | h1l
    · subst h1e
      simp only [Nat.sub_self]
      rw [htotal]
      have hzero : entryAfterChunks desc init chunks 0 =
          { total := init, completed := 0, description := desc } := by
        simp [entryAfterChunks, transferLoop]
      rw [hzero]
      exact le_max_left _ _
    · have htkp : chunks.take (k - 1) ≠ [] := by
        intro hnil
        rcases List.take_eq_nil_iff.mp hnil with h | h
        · omega
        · exact hchunks h
      have prev := transferLoop_entry desc (chunks.take (k - 1))
        { total := init, completed := 0, description := desc } 0 htkp
      have hprev : (entryAfterChunks desc init chunks (k - 1)).total =
          max init (cumBytes chunks (k - 1) : Int) := by
        rw [entryAfterChunks, prev.2.1]
        simp [cumBytes]
      rw [hprev, htotal]
      have hmono : cumBytes chunks (k - 1) ≤ cumBytes chunks k := by
        have := cumBytes_mono chunks (k - 1)
        have hkk : k - 1 + 1 = k := by omega
        rwa [hkk] at this
      exact max_le_max le_rfl (by exact_mod_cast hmono)
  · intro hlt
    rw [htotal]
    exact max_eq_right (le_of_lt hlt)

/-- Witness for C5 at a concrete input: initial total 2 (a lying
Content-Length), three one-byte chunks, observed after the third chunk. -/
theorem c5_per_chunk_progress_witness :
    (entryAfterChunks "d" 2 [[7], [8], [9]] 3).completed =
      (cumBytes [[7], [8], [9]] 3 : Int) ∧
    (entryAfterChunks "d" 2 [[7], [8], [9]] 3).total =
      max 2 (cumBytes [[7], [8], [9]] 3 : Int) ∧
    (entryAfterChunks "d" 2 [[7], [8], [9]] (3 - 1)).total ≤
      (entryAfterChunks "d" 2 [[7], [8], [9]] 3).total ∧
    ((2 : Int) < (cumBytes [[7], [8], [9]] 3 : Int) →
      (entryAfterChunks "d" 2 [[7], [8], [9]] 3).total =
        (cumBytes [[7], [8], [9]] 3 : Int)) :=
  c5_per_chunk_progress "d" 2 [[7], [8], [9]] 3 (by decide) (by decide)

/-- Claim C6: a response with a status outside [200, 300) terminates the
task with the progress entry set to total 1 and completed 1 and a
description naming the status; no body bytes are read and the
destination file is left exactly as it was (in particular none is
created). -/
theorem c6_status_error_terminal (buffer : Bool) (resp : Response)
    (fileName displayDomain : String) (prior : Option Bytes)
    (h : resp.statusCode < 200 ∨ 300 ≤ resp.statusCode) :
    downloaderBody buffer resp fileName displayDomain prior =
      { progress := some { total := 1, completed := 1,
                           description := statusDesc resp.host resp.statusCode },
        file := prior, bytesRead := 0 } := by
  have hc : ¬ (200 ≤ resp.statusCode ∧ resp.statusCode < 300) := by omega
  simp [downloaderBody, hc]

/-- Witness for C6 at a concrete input: a 404 response with a body the
task never reads and no pre-existing destination file. -/
theorem c6_status_error_terminal_witness :
    downloaderBody false respNotFound "f" "h" none =
      { progress := some { total := 1, completed := 1,
                           description :=
                             statusDesc respNotFound.host respNotFound.statusCode },
        file := none, bytesRead := 0 } :=
  c6_status_error_terminal false respNotFound "f" "h" none (by decide)

/-- Claim C7: the spec says every task that has not already finished
with a captured error is cancelled during the group-cancellation sweep.
The sweep calls `Task.exception()` first, which raises
`InvalidStateError` for a task that is still running; the surrounding
handler swallows that and skips the cancel, so a still-running task is
NOT cancelled (while a task that already finished cleanly, which needs
no cancelling, is).  The progress-entry half of the claim does hold: an
incomplete entry gets the cancelled suffix.  This evaluates the code at
the failing input. -/
theorem c7_running_task_not_cancelled :
    cancelSweep PyTaskState.running = false ∧
    cancelSweep PyTaskState.doneOk = true ∧
    cancelSweep PyTaskState.doneErr = false ∧
    markCancelled [{ total := 10, completed := 3, description := "Get h (f)" }] =
      [{ total := 10, completed := 10,
         description := "Get h (f) (cancelled)" }] := by
  decide

/-- Claim C8: the prober returns true exactly on an HTTP 401 whose
WWW-Authenticate value starts with Basic; with the head-first option a
qualifying HEAD short-circuits with no GET, a non-qualifying HEAD falls
through to the streamed GET, and without the option only the GET is
issued; any response failing the Basic test (other scheme, other
status) yields false. -/
theorem c8_auth_prober (h g r : ProbeResponse) :
    (isBasicChallenge h = true →
      requires_authentication true h g =
        { result := true, headIssued := true, getIssued := false }) ∧
    (isBasicChallenge h = false →
      requires_authentication true h g =
        { result := isBasicChallenge g, headIssued := true, getIssued := true }) ∧
    (requires_authentication false h g =
      { result := isBasicChallenge g, headIssued := false, getIssued := true }) ∧
    (isBasicChallenge r = true ↔
      (r.statusCode = 401 ∧
        strStartsWith (r.wwwAuthenticate.getD "") "Basic" = true)) := by
  refine ⟨?_, ?_, ?_, ?_⟩
  · intro hb
    simp [requires_authentication, hb]
  · intro hb
    simp [requires_authentication, hb]
  · simp [requires_authentication]
  · simp [isBasicChallenge]

/-- Witness for C8 at concrete inputs: a Basic 401 HEAD response, a
plain 200 GET response, and a Digest 401 challenge that the Basic test
rejects. -/
theorem c8_auth_prober_witness :
    (isBasicChallenge probeBasic401 = true →
      requires_authentication true probeBasic401 probePlain200 =
        { result := true, headIssued := true, getIssued := false }) ∧
    (isBasicChallenge probeBasic401 = false →
      requires_authentication true probeBasic401 probePlain200 =
        { result := isBasicChallenge probePlain200,
          headIssued := true, getIssued := true }) ∧
    (requires_authentication false probeBasic401 probePlain200 =
      { result := isBasicChallenge probePlain200,
        headIssued := false, getIssued := true }) ∧
    (isBasicChallenge probeDigest401 = true ↔
      (probeDigest401.statusCode = 401 ∧
        strStartsWith (probeDigest401.wwwAuthenticate.getD "") "Basic" = true)) :=
  c8_auth_prober probeBasic401 probePlain200 probeDigest401

/-- Claim C9: supplying exactly one of username and password makes the
pre-flight fail with the usage error before any task list is produced;
supplying both or neither never produces that error. -/
theorem c9_credential_usage_error (urls : List String) (u p : Option String) :
    ((u.isSome != p.isSome) = true →
      cliPlan urls u p = Except.error authErrorMsg) ∧
    ((u.isSome != p.isSome) = false →
      cliPlan urls u p ≠ Except.error authErrorMsg) := by
  constructor
  · intro hmix
    simp [cliPlan, validateAuth, hmix]
  · intro hsame
    have hmsg : noUrlsMsg ≠ authErrorMsg := by decide
    rcases u with _ | uv <;> rcases p with _ | pv <;>
      simp_all [cliPlan, validateAuth] <;>
      split <;> simp_all

/-- Witness for C9 at concrete inputs: a username without a password is
rejected with the usage error. -/
theorem c9_credential_usage_error_witness :
    (((some "alice" : Option String).isSome != (none : Option String).isSome) = true →
      cliPlan ["x"] (some "alice") none = Except.error authErrorMsg) ∧
    (((some "alice" : Option String).isSome != (none : Option String).isSome) = false →
      cliPlan ["x"] (some "alice") none ≠ Except.error authErrorMsg) :=
  c9_credential_usage_error ["x"] (some "alice") none

/-- Claim C10 counterexample: the claim says prior content at the
destination is never preserved once the task reaches the transfer.
In buffered mode a cancelled transfer never opens the destination file,
so the prior content [1, 2, 3] is still there afterwards. -/
theorem c10_buffered_cancel_preserves_prior :
    (downloaderBody true respCancelled "f" "h" (some [1, 2, 3])).file =
      some [1, 2, 3] ∧
    some ([1, 2, 3] : Bytes) ≠ some ([] : Bytes) := by
  decide

/-- Claim C10 amended: for a task that reaches the transfer,
direct mode truncates the destination when it opens it at transfer
start, so the destination afterwards holds exactly the received bytes
and prior content is never preserved; buffered mode opens (and
truncates) the destination only when the stream completes normally, and
a buffered transfer that is cancelled or fails leaves the prior content
of the destination untouched. -/
theorem c10_truncation_on_open (resp : Response)
    (fileName displayDomain : String) (prior : Option Bytes)
    (hs : 200 ≤ resp.statusCode ∧ resp.statusCode < 300)
    (hl : ¬ (resp.contentLengthHeader.isSome ∧
      (parsePyInt (resp.contentLengthHeader.getD "")).isNone)) :
    (downloaderBody false resp fileName displayDomain prior).file =
      some resp.chunks.flatten ∧
    (resp.streamEnd = StreamEnd.completed →
      (downloaderBody true resp fileName displayDomain prior).file = some []) ∧
    (resp.streamEnd ≠ StreamEnd.completed →
      (downloaderBody true resp fileName displayDomain prior).file = prior) := by
  have hc : ¬ ¬ (200 ≤ resp.statusCode ∧ resp.statusCode < 300) := by
    simpa using hs
  refine ⟨?_, ?_, ?_⟩
  · simp only [downloaderBody, if_neg hc, if_neg hl]
    cases hend : resp.streamEnd <;> simp
  · intro hend
    simp only [downloaderBody, if_neg hc, if_neg hl, hend]
    simp [MemBuffer.readAll_after_writes]
  · intro hend
    simp only [downloaderBody, if_neg hc, if_neg hl]
    cases hend2 : resp.streamEnd <;> simp_all

/-- Witness for C10 amended at a concrete input: a cancelled 200
transfer of one chunk over a destination that previously held [5]. -/
theorem c10_truncation_on_open_witness :
    (downloaderBody false respCancelled "f" "h" (some [5])).file =
      some respCancelled.chunks.flatten ∧
    (respCancelled.streamEnd = StreamEnd.completed →
      (downloaderBody true respCancelled "f" "h" (some [5])).file = some []) ∧
    (respCancelled.streamEnd ≠ StreamEnd.completed →
      (downloaderBody true respCancelled "f" "h" (some [5])).file = some [5]) :=
  c10_truncation_on_open respCancelled "f" "h" (some [5]) (by decide) (by decide)

end CoolDownloader
